import Mathlib

/-
Verification of the synchronized camera subscriber and the simple publisher
plugin of the image_common repository.

The camera subscriber model is a shallow embedding of
CameraSubscriber<NodeType>::Impl (camera_subscriber implementation file):
its counters, its shutdown flag, its health check, and the callbacks wired
up by CameraSubscriber::initialise.  The time-alignment primitive
(message_filters::TimeSynchronizer) is an external collaborator of this
repository and is modelled from the spec where needed.
-/

namespace ImageTransport

/-- State of CameraSubscriber<NodeType>::Impl together with the observable
state of its two subscription filters, its watchdog timer and the
time-alignment buffers of the external synchronizer.

Fields with a trailing underscore are the members of the C++ Impl struct:
`unsubscribed_` and the three synchronization counters (C++ `int`,
embedded as `Int`; the claims never approach overflow).

`imageSubActive` / `infoSubActive` model whether `image_sub_` / `info_sub_`
are subscribed (callbacks are delivered only while subscribed; `shutdown`
calls `unsubscribe()` on both).  `timerActive` models whether
`check_synced_timer_` exists and fires; `initialise` creates it and the
body of `Impl::shutdown` never touches it.

`syncImageBuf` / `syncInfoBuf` are the time keys of the unmatched messages
buffered on each side of the synchronizer. -/
structure ImplState where
  unsubscribed_ : Bool
  imageSubActive : Bool
  infoSubActive : Bool
  timerActive : Bool
  syncImageBuf : List Nat
  syncInfoBuf : List Nat
  image_received_ : Int
  info_received_ : Int
  both_received_ : Int
deriving DecidableEq, Repr

/-- The state right after CameraSubscriber::initialise: not unsubscribed,
both subscriptions open, watchdog timer created, synchronizer empty,
all three counters zero (as set by the Impl constructor). -/
def initImpl : ImplState :=
  { unsubscribed_ := false
    imageSubActive := true
    infoSubActive := true
    timerActive := true
    syncImageBuf := []
    syncInfoBuf := []
    image_received_ := 0
    info_received_ := 0
    both_received_ := 0 }

/-- CameraSubscriber<NodeType>::Impl::isValid. -/
def isValid (s : ImplState) : Bool :=
  !s.unsubscribed_

/-- CameraSubscriber<NodeType>::Impl::shutdown: if not yet unsubscribed,
set `unsubscribed_` and unsubscribe both filters.  The body does not touch
`check_synced_timer_` and does not touch the counters. -/
def ImplState.shutdown (s : ImplState) : ImplState :=
  if !s.unsubscribed_ then
    { s with unsubscribed_ := true, imageSubActive := false, infoSubActive := false }
  else
    s

/-- CameraSubscriber<NodeType>::operator void*: non-null exactly when the
impl exists and is valid. -/
def cameraSubscriberValidity (impl : Option ImplState) : Bool :=
  match impl with
  | some s => isValid s
  | none => false

/-- CameraSubscriber<NodeType>::Impl::checkImagesSynchronized: computes
`threshold = 3 * both_received_`, warns when either per-side counter
exceeds it, then resets all three counters unconditionally.  Returns
(whether the warning was emitted, the state afterwards). -/
def checkImagesSynchronized (s : ImplState) : Bool × ImplState :=
  let threshold : Int := 3 * s.both_received_
  let warn := decide (s.image_received_ > threshold) || decide (s.info_received_ > threshold)
  (warn, { s with image_received_ := 0, info_received_ := 0, both_received_ := 0 })

/-- Modelled from the spec: the bounded queue depth of the time-alignment
primitive (message_filters::TimeSynchronizer, external to this repository),
constructed as `sync_(10)` by the Impl constructor. -/
def syncQueueDepth : Nat := 10

/-- Modelled from the spec: appending one time key to one side's buffer of
the time-alignment primitive, silently dropping the oldest unmatched entry
once the bounded depth is exceeded. -/
def pushBounded (q : List Nat) (t : Nat) : List Nat :=
  let q2 := q ++ [t]
  if syncQueueDepth < q2.length then q2.tail else q2

/-- The externally observable events of one CameraSubscriber instance:
arrival of an image message with a time key, arrival of a CameraInfo
message with a time key, one firing of the watchdog timer, and a call to
shutdown(). -/
inductive Event where
  | imageMsg (t : Nat)
  | infoMsg (t : Nat)
  | tick
  | shutdownCall
deriving DecidableEq, Repr

/-- Observable output of processing one event: whether the user pair
callback fired, whether the desynchronization warning was emitted, and
whether the health check ran at all. -/
structure Output where
  pairFired : Bool
  warned : Bool
  healthCheckRan : Bool
deriving DecidableEq, Repr

/-- One step of the subscriber.

An image arrival is delivered only while `image_sub_` is subscribed; it
always increments `image_received_` (CameraSubscriber::initialise registers
`increment(&image_received_)` directly on the subscription) and is handed
to the synchronizer, which either completes a pair with a buffered info
message of the same time key (firing the pair callback and
`increment(&both_received_)`) or buffers it.  Info arrivals are symmetric.
A tick runs `checkImagesSynchronized` if the timer exists.  A shutdown
call runs `Impl::shutdown`. -/
def step (s : ImplState) (e : Event) : ImplState × Output :=
  match e with
  | Event.imageMsg t =>
    if s.imageSubActive then
      let s1 := { s with image_received_ := s.image_received_ + 1 }
      if t ∈ s1.syncInfoBuf then
        ({ s1 with syncInfoBuf := s1.syncInfoBuf.erase t,
                   both_received_ := s1.both_received_ + 1 },
         { pairFired := true, warned := false, healthCheckRan := false })
      else
        ({ s1 with syncImageBuf := pushBounded s1.syncImageBuf t },
         { pairFired := false, warned := false, healthCheckRan := false })
    else
      (s, { pairFired := false, warned := false, healthCheckRan := false })
  | Event.infoMsg t =>
    if s.infoSubActive then
      let s1 := { s with info_received_ := s.info_received_ + 1 }
      if t ∈ s1.syncImageBuf then
        ({ s1 with syncImageBuf := s1.syncImageBuf.erase t,
                   both_received_ := s1.both_received_ + 1 },
         { pairFired := true, warned := false, healthCheckRan := false })
      else
        ({ s1 with syncInfoBuf := pushBounded s1.syncInfoBuf t },
         { pairFired := false, warned := false, healthCheckRan := false })
    else
      (s, { pairFired := false, warned := false, healthCheckRan := false })
  | Event.tick =>
    if s.timerActive then
      let r := checkImagesSynchronized s
      (r.2, { pairFired := false, warned := r.1, healthCheckRan := true })
    else
      (s, { pairFired := false, warned := false, healthCheckRan := false })
  | Event.shutdownCall =>
    (s.shutdown, { pairFired := false, warned := false, healthCheckRan := false })

/-- Run a list of events, collecting the final state and the per-event
outputs in order. -/
def runOutputs : ImplState → List Event → ImplState × List Output
  | s, [] => (s, [])
  | s, e :: es =>
    let r := step s e
    let rest := runOutputs r.1 es
    (rest.1, r.2 :: rest.2)

/-- The state after running a list of events. -/
def run (s : ImplState) : List Event → ImplState :=
  fun es => (runOutputs s es).1

/-- All intermediate states of a run, the starting state included. -/
def statesAlong : ImplState → List Event → List ImplState
  | s, [] => [s]
  | s, e :: es => s :: statesAlong (step s e).1 es

/-- True when no event of the list causes a desynchronization warning when
run from the given state. -/
def allTicksSilent : ImplState → List Event → Bool
  | _, [] => true
  | s, e :: es => !(step s e).2.warned && allTicksSilent (step s e).1 es

/-- Period of `check_synced_timer_` as created by
CameraSubscriber::initialise: `std::chrono::seconds(1)`. -/
def checkTimerPeriodSeconds : Nat := 1

/-- The window length named by the warning text of
checkImagesSynchronized ("In the last 10s:") and by the comment above the
timer creation ("Complain every 10s ..."). -/
def warningTextWindowSeconds : Nat := 10

/-- The format string of the rate-limited desynchronization warning of
checkImagesSynchronized. -/
def desyncWarningFormat : String :=
  "[image_transport] Topics do not appear to be synchronized. In the last 10s:\n\tImage messages received:      %d\n\tCameraInfo messages received: %d\n\tSynchronized pairs:           %d"

/-- C1: a health-check invocation emits the desynchronization warning if
and only if image_received > 3 * both_received or
info_received > 3 * both_received at the moment of evaluation; with
counters (10, 1, 1) a warning fires and with (4, 4, 4) none fires. -/
theorem camera_health_check_warn_iff (s : ImplState) :
    ((checkImagesSynchronized s).1 = true ↔
      (3 * s.both_received_ < s.image_received_ ∨ 3 * s.both_received_ < s.info_received_)) ∧
    (checkImagesSynchronized
      { initImpl with image_received_ := 10, info_received_ := 1, both_received_ := 1 }).1
      = true ∧
    (checkImagesSynchronized
      { initImpl with image_received_ := 4, info_received_ := 4, both_received_ := 4 }).1
      = false := by
  refine ⟨?_, by decide, by decide⟩
  simp [checkImagesSynchronized]

/-- C2: after every health-check evaluation all three synchronization
counters are zero, regardless of whether the warning was emitted. -/
theorem camera_health_check_resets_counters (s : ImplState) :
    (checkImagesSynchronized s).2.image_received_ = 0 ∧
    (checkImagesSynchronized s).2.info_received_ = 0 ∧
    (checkImagesSynchronized s).2.both_received_ = 0 :=
  ⟨rfl, rfl, rfl⟩

/-- C10: when both_received = 0, a health check warns exactly when at least
one image or at least one info message was counted this window; an idle
window (0, 0, 0) produces no warning, while a single unmatched message is
enough to fire one. -/
theorem camera_health_check_no_pairs_iff (s : ImplState)
    (hb : s.both_received_ = 0) :
    ((checkImagesSynchronized s).1 = true ↔
      (0 < s.image_received_ ∨ 0 < s.info_received_)) ∧
    (checkImagesSynchronized initImpl).1 = false ∧
    (checkImagesSynchronized { initImpl with image_received_ := 1 }).1 = true := by
  refine ⟨?_, by decide, by decide⟩
  simp [checkImagesSynchronized, hb]

/-- Witness for C10: the idle window evaluated concretely through the
theorem. -/
theorem camera_health_check_no_pairs_iff_witness :
    (checkImagesSynchronized initImpl).1 = false :=
  (camera_health_check_no_pairs_iff initImpl rfl).2.1

/-- C5: the timer driving checkImagesSynchronized fires every 1 second and
each evaluation resets the counters, so each warning decision covers a
1-second accumulation, not the 10 seconds named by the warning text: four
image messages make the next tick warn, but the tick after it (still
within 10 seconds of those arrivals) sees counters already reset and does
not warn. -/
theorem camera_watchdog_window_is_one_second :
    checkTimerPeriodSeconds = 1 ∧
    warningTextWindowSeconds = 10 ∧
    checkTimerPeriodSeconds ≠ warningTextWindowSeconds ∧
    ((runOutputs initImpl
        [Event.imageMsg 0, Event.imageMsg 1, Event.imageMsg 2, Event.imageMsg 3,
         Event.tick, Event.tick]).2.map Output.warned)
      = [false, false, false, false, true, false] := by
  refine ⟨rfl, rfl, by decide, by decide⟩

/-- C6: shutdown is one-way and idempotent: after the first call the
subscriber is permanently unsubscribed and invalid (operator void* yields
null), a repeated call is a no-op, and a call on an already-unsubscribed
state changes nothing. -/
theorem camera_shutdown_idempotent (s : ImplState) :
    ImplState.shutdown (ImplState.shutdown s) = ImplState.shutdown s ∧
    (ImplState.shutdown s).unsubscribed_ = true ∧
    isValid (ImplState.shutdown s) = false ∧
    cameraSubscriberValidity (some (ImplState.shutdown s)) = false ∧
    (s.unsubscribed_ = true → ImplState.shutdown s = s) := by
  by_cases h : s.unsubscribed_ = true
  · simp [ImplState.shutdown, isValid, cameraSubscriberValidity, h]
  · simp only [Bool.not_eq_true] at h
    simp [ImplState.shutdown, isValid, cameraSubscriberValidity, h]

/-- Witness for C6: idempotence and invalidity at the freshly initialised
state, and the no-op behaviour at an already-unsubscribed state. -/
theorem camera_shutdown_idempotent_witness :
    ImplState.shutdown (ImplState.shutdown initImpl) = ImplState.shutdown initImpl ∧
    isValid (ImplState.shutdown initImpl) = false ∧
    ImplState.shutdown { initImpl with unsubscribed_ := true }
      = { initImpl with unsubscribed_ := true } :=
  ⟨(camera_shutdown_idempotent initImpl).1,
   (camera_shutdown_idempotent initImpl).2.2.1,
   (camera_shutdown_idempotent { initImpl with unsubscribed_ := true }).2.2.2.2 rfl⟩

/-- A quiescent state: both subscriptions closed and all counters zero.
Every event keeps it quiescent and emits no warning. -/
def Quiescent (s : ImplState) : Prop :=
  s.imageSubActive = false ∧ s.infoSubActive = false ∧
  s.image_received_ = 0 ∧ s.info_received_ = 0 ∧ s.both_received_ = 0

theorem quiescent_step (s : ImplState) (e : Event) (h : Quiescent s) :
    Quiescent (step s e).1 ∧ (step s e).2.warned = false := by
  obtain ⟨h1, h2, h3, h4, h5⟩ := h
  cases e with
  | imageMsg t =>
    simp [Quiescent, step, h1, h2, h3, h4, h5]
  | infoMsg t =>
    simp [Quiescent, step, h1, h2, h3, h4, h5]
  | tick =>
    by_cases ht : s.timerActive
    · simp [Quiescent, step, ht, checkImagesSynchronized, h1, h2, h3, h4, h5]
    · simp only [Bool.not_eq_true] at ht
      simp [Quiescent, step, ht, h1, h2, h3, h4, h5]
  | shutdownCall =>
    simp only [step, ImplState.shutdown]
    by_cases hu : s.unsubscribed_
    · simp [Quiescent, hu, h1, h2, h3, h4, h5]
    · simp only [Bool.not_eq_true] at hu
      simp [Quiescent, hu, h1, h2, h3, h4, h5]

theorem allTicksSilent_of_quiescent (s : ImplState) (h : Quiescent s)
    (es : List Event) : allTicksSilent s es = true := by
  induction es generalizing s with
  | nil => rfl
  | cons e es ih =>
    have hq := quiescent_step s e h
    simp [allTicksSilent, hq.2, ih _ hq.1]

/-- C3 counterexample: from a fresh subscriber, one image arrival followed
by shutdown() and one timer period: the health check still runs after
shutdown (the timer is not cancelled by Impl::shutdown) and still emits a
desynchronization warning, against the claim that after shutdown no
health-check evaluation runs and no warning can be observed. -/
theorem camera_shutdown_watchdog_counterexample :
    (runOutputs initImpl [Event.imageMsg 0, Event.shutdownCall, Event.tick]).2 =
      [{ pairFired := false, warned := false, healthCheckRan := false },
       { pairFired := false, warned := false, healthCheckRan := false },
       { pairFired := false, warned := true, healthCheckRan := true }] := by
  decide

/-- C3 amended: after shutdown() no counter increment or pair callback is
acted upon (both subscriptions are unsubscribed), but the watchdog timer is
not cancelled: health checks keep running on every tick.  At most the first
post-shutdown evaluation can warn from residual counters; once it has reset
them, no later event ever produces a warning. -/
theorem camera_shutdown_amended (s : ImplState)
    (hu : s.unsubscribed_ = true) (hi : s.imageSubActive = false)
    (hn : s.infoSubActive = false) (ht : s.timerActive = true) :
    (∀ t, (step s (Event.imageMsg t)).1 = s ∧
      (step s (Event.imageMsg t)).2.pairFired = false) ∧
    (∀ t, (step s (Event.infoMsg t)).1 = s ∧
      (step s (Event.infoMsg t)).2.pairFired = false) ∧
    (step s Event.tick).2.healthCheckRan = true ∧
    (∀ es, allTicksSilent (step s Event.tick).1 es = true) := by
  refine ⟨fun t => ?_, fun t => ?_, ?_, fun es => ?_⟩
  · simp [step, hi]
  · simp [step, hn]
  · simp [step, ht]
  · have hq : Quiescent (step s Event.tick).1 := by
      simp [Quiescent, step, ht, checkImagesSynchronized]
      exact ⟨hi, hn⟩
    exact allTicksSilent_of_quiescent _ hq es

/-- Witness for C3: at the concrete post-shutdown state, the next tick
still runs the health check, and after it no warning is ever observed
again on a concrete mixed event sequence. -/
theorem camera_shutdown_amended_witness :
    (step (ImplState.shutdown initImpl) Event.tick).2.healthCheckRan = true ∧
    allTicksSilent (step (ImplState.shutdown initImpl) Event.tick).1
      [Event.tick, Event.imageMsg 7, Event.infoMsg 7, Event.tick] = true :=
  ⟨(camera_shutdown_amended (ImplState.shutdown initImpl)
      (by decide) (by decide) (by decide) (by decide)).2.2.1,
   (camera_shutdown_amended (ImplState.shutdown initImpl)
      (by decide) (by decide) (by decide) (by decide)).2.2.2
      [Event.tick, Event.imageMsg 7, Event.infoMsg 7, Event.tick]⟩

/-- Strengthened counter invariant: each side's counter dominates the pairs
matched so far this window plus that side's still-buffered unmatched
messages.  It holds when a window starts with empty alignment buffers and
is preserved by every event except the tick (which resets the counters but
not the buffers). -/
def StrongInv (s : ImplState) : Prop :=
  s.both_received_ + (s.syncImageBuf.length : Int) ≤ s.image_received_ ∧
  s.both_received_ + (s.syncInfoBuf.length : Int) ≤ s.info_received_

theorem pushBounded_length_le (q : List Nat) (t : Nat) :
    (pushBounded q t).length ≤ q.length + 1 := by
  simp only [pushBounded]
  split
  · simp [List.length_tail]
  · simp

theorem strongInv_step (s : ImplState) (e : Event) (he : e ≠ Event.tick)
    (h : StrongInv s) : StrongInv (step s e).1 := by
  obtain ⟨h1, h2⟩ := h
  cases e with
  | imageMsg t =>
    simp only [step]
    by_cases ha : s.imageSubActive
    · simp only [ha, if_true]
      by_cases hm : t ∈ s.syncInfoBuf
      · have hlen : (s.syncInfoBuf.erase t).length = s.syncInfoBuf.length - 1 :=
          List.length_erase_of_mem hm
        have hpos : 0 < s.syncInfoBuf.length := List.length_pos.mpr
          (fun hnil => by simp [hnil] at hm)
        simp only [StrongInv, hm, if_true]
        constructor
        · omega
        · simp only [hlen]
          omega
      · have hpb := pushBounded_length_le s.syncImageBuf t
        simp only [StrongInv, hm, if_false]
        constructor
        · omega
        · omega
    · simp only [Bool.not_eq_true] at ha
      simp only [ha, Bool.false_eq_true, if_false]
      exact ⟨h1, h2⟩
  | infoMsg t =>
    simp only [step]
    by_cases ha : s.infoSubActive
    · simp only [ha, if_true]
      by_cases hm : t ∈ s.syncImageBuf
      · have hlen : (s.syncImageBuf.erase t).length = s.syncImageBuf.length - 1 :=
          List.length_erase_of_mem hm
        have hpos : 0 < s.syncImageBuf.length := List.length_pos.mpr
          (fun hnil => by simp [hnil] at hm)
        simp only [StrongInv, hm, if_true]
        constructor
        · simp only [hlen]
          omega
        · omega
      · have hpb := pushBounded_length_le s.syncInfoBuf t
        simp only [StrongInv, hm, if_false]
        constructor
        · omega
        · omega
    · simp only [Bool.not_eq_true] at ha
      simp only [ha, Bool.false_eq_true, if_false]
      exact ⟨h1, h2⟩
  | tick => exact absurd rfl he
  | shutdownCall =>
    simp only [step, ImplState.shutdown]
    by_cases hu : s.unsubscribed_
    · simp only [hu, Bool.not_true, Bool.false_eq_true, if_false]
      exact ⟨h1, h2⟩
    · simp only [Bool.not_eq_true] at hu
      simp only [hu, Bool.not_false, if_true]
      exact ⟨h1, h2⟩

theorem strongInv_statesAlong (s : ImplState) (es : List Event)
    (hs : StrongInv s) (hnt : Event.tick ∉ es) :
    ∀ s2 ∈ statesAlong s es, StrongInv s2 := by
  induction es generalizing s with
  | nil =>
    intro s2 hmem
    simp only [statesAlong, List.mem_singleton] at hmem
    exact hmem ▸ hs
  | cons e es ih =>
    intro s2 hmem
    simp only [statesAlong, List.mem_cons] at hmem
    rcases hmem with rfl | hmem
    · exact hs
    · have he : e ≠ Event.tick := fun h => hnt (h ▸ List.mem_cons_self e es)
      have hnt2 : Event.tick ∉ es := fun hx => hnt (List.mem_cons_of_mem e hx)
      exact ih (step s e).1 (strongInv_step s e he hs) hnt2 s2 hmem

theorem strongInv_min (s : ImplState) (h : StrongInv s) :
    s.both_received_ ≤ min s.image_received_ s.info_received_ := by
  obtain ⟨h1, h2⟩ := h
  have l1 : (0 : Int) ≤ (s.syncImageBuf.length : Int) := Int.ofNat_nonneg _
  have l2 : (0 : Int) ≤ (s.syncInfoBuf.length : Int) := Int.ofNat_nonneg _
  exact le_min (by omega) (by omega)

/-- C4 counterexample: an image buffered in one window can be matched by an
info message in the next window.  After the trace image(t=5), tick,
info(t=5) the counters are both_received = 1, image_received = 0,
info_received = 1, violating both_received <= min(image_received,
info_received) inside the second window. -/
theorem camera_counter_invariant_counterexample :
    (run initImpl [Event.imageMsg 5, Event.tick, Event.infoMsg 5]).both_received_ = 1 ∧
    (run initImpl [Event.imageMsg 5, Event.tick, Event.infoMsg 5]).image_received_ = 0 ∧
    (run initImpl [Event.imageMsg 5, Event.tick, Event.infoMsg 5]).info_received_ = 1 ∧
    ¬ ((run initImpl [Event.imageMsg 5, Event.tick, Event.infoMsg 5]).both_received_ ≤
        min (run initImpl [Event.imageMsg 5, Event.tick, Event.infoMsg 5]).image_received_
            (run initImpl [Event.imageMsg 5, Event.tick, Event.infoMsg 5]).info_received_) := by
  refine ⟨by decide, by decide, by decide, by decide⟩

/-- C4 amended: in a window that starts with all three counters zero and an
empty alignment buffer on both sides (for instance the first window after
construction), the counters satisfy both_received <= min(image_received,
info_received) at every intermediate state, for every sequence of arrival
and shutdown events containing no health-check tick.  A pair completed
from a message buffered before the window start can exceed the bound, as
the counterexample shows. -/
theorem camera_counter_invariant_amended (s : ImplState) (es : List Event)
    (hb1 : s.syncImageBuf = []) (hb2 : s.syncInfoBuf = [])
    (hc1 : s.image_received_ = 0) (hc2 : s.info_received_ = 0)
    (hc3 : s.both_received_ = 0) (hnt : Event.tick ∉ es) :
    ∀ s2 ∈ statesAlong s es,
      s2.both_received_ ≤ min s2.image_received_ s2.info_received_ := by
  intro s2 hmem
  have hs : StrongInv s := by
    simp [StrongInv, hb1, hb2, hc1, hc2, hc3]
  exact strongInv_min s2 (strongInv_statesAlong s es hs hnt s2 hmem)

/-- Witness for C4: the invariant evaluated at the final state of a
concrete in-window trace in which one pair is matched. -/
theorem camera_counter_invariant_amended_witness :
    (run initImpl [Event.imageMsg 1, Event.infoMsg 1, Event.imageMsg 2]).both_received_ ≤
      min (run initImpl [Event.imageMsg 1, Event.infoMsg 1, Event.imageMsg 2]).image_received_
          (run initImpl [Event.imageMsg 1, Event.infoMsg 1, Event.imageMsg 2]).info_received_ :=
  camera_counter_invariant_amended initImpl
    [Event.imageMsg 1, Event.infoMsg 1, Event.imageMsg 2]
    rfl rfl rfl rfl rfl (by decide)
    (run initImpl [Event.imageMsg 1, Event.infoMsg 1, Event.imageMsg 2]) (by decide)

/-
Publisher-plugin model, embedding PublisherPlugin (publisher_plugin header)
and SimplePublisherPlugin (simple_publisher_plugin header).  `M` is the
transport-specific wire-message type the simple plugin is templated on.
Side effects of a publish call are made explicit: handing a wire message to
the underlying rclcpp publisher, or logging an error; a thrown
std::logic_error is an `Except.error` carrying the message text.
-/

/-- sensor_msgs::msg::Image, reduced to the identity the claims need. -/
structure Image where
  stamp : Nat
deriving DecidableEq, Repr

/-- One observable side effect of a publish call: a wire message handed to
the underlying rclcpp publisher on its topic, or an RCLCPP_ERROR log. -/
inductive PubEffect (M : Type) where
  | wire (topic : String) (msg : M)
  | logError (text : String)
deriving DecidableEq, Repr

/-- Result of a publish call: either the list of side effects it performed,
or the text of the std::logic_error it threw. -/
def PubResult (M : Type) : Type := Except String (List (PubEffect M))

/-- The rclcpp::Publisher<M> held by the simple plugin after advertise. -/
structure PublisherT (M : Type) where
  topic : String
deriving DecidableEq, Repr

/-- rclcpp publisher publish: delivers the wire message on the topic. -/
def PublisherT.publishMsg {M : Type} (pub : PublisherT M) (m : M) :
    List (PubEffect M) :=
  [PubEffect.wire pub.topic m]

/-- SimplePublisherPlugin::bindInternalPublisher: wraps the concrete
publisher object into a PublishFn function object. -/
def bindInternalPublisher {M : Type} (pub : PublisherT M) :
    M → List (PubEffect M) :=
  fun m => pub.publishMsg m

/-- Error text of RCLCPP_ERROR in SimplePublisherPlugin::publish and
SimplePublisherPlugin::publishUniquePtr on an invalid plugin. -/
def errInvalidPub : String :=
  "Call to publish() on an invalid image_transport::SimplePublisherPlugin"

/-- Text of the std::logic_error thrown by the default copy-based
PublishFn entry point of SimplePublisherPlugin. -/
def errPublishFnNotImpl : String :=
  "publish(const sensor_msgs::msg::Image&, const PublishFn&) is not implemented."

/-- Text of the std::logic_error thrown by the default owned (UniquePtr)
entry point of SimplePublisherPlugin. -/
def errUniquePtrNotImpl : String :=
  "publish(sensor_msgs::msg::Image::UniquePtr, const PublisherT&) is not implemented."

/-- Text of the std::logic_error thrown by the default
PublisherPlugin::publishUniquePtr of the abstract base class. -/
def errBaseUniquePtrNotImpl : String :=
  "publishUniquePtr() is not implemented."

/-- A concrete SimplePublisherPlugin<M> subclass, as its table of virtual
overrides.  `none` in a field means the subclass leaves the base-class
default in place:

* `encodePublishFn` — publish(const Image&, const PublishFn&), the
  deprecated copy-based entry point (default throws);
* `encodePublisherT` — publish(const Image&, const PublisherT&), the
  copy-based entry point (default falls back to `encodePublishFn` through
  bindInternalPublisher);
* `encodeUniquePtr` — publish(Image::UniquePtr, const PublisherT&), the
  owned entry point (default throws);
* `supportsUniquePtrOverride` — supportsUniquePtrPub (base default false). -/
structure SimplePublisherPlugin (M : Type) where
  encodePublishFn : Option (Image → (M → List (PubEffect M)) → PubResult M)
  encodePublisherT : Option (Image → PublisherT M → PubResult M)
  encodeUniquePtr : Option (Image → PublisherT M → PubResult M)
  supportsUniquePtrOverride : Option Bool

/-- PublisherPlugin::supportsUniquePtrPub: the subclass override if any,
else the base default false. -/
def supportsUniquePtrPub {M : Type} (p : SimplePublisherPlugin M) : Bool :=
  p.supportsUniquePtrOverride.getD false

/-- The default PublisherPlugin::publishUniquePtr of the abstract base
class: throws std::logic_error unconditionally. -/
def publishUniquePtrBaseDefault (M : Type) : PubResult M :=
  Except.error errBaseUniquePtrNotImpl

/-- Virtual dispatch of publish(const Image&, const PublishFn&): the
override when present, else the base default, which throws. -/
def publishWithPublishFn {M : Type} (p : SimplePublisherPlugin M)
    (message : Image) (publish_fn : M → List (PubEffect M)) : PubResult M :=
  match p.encodePublishFn with
  | some f => f message publish_fn
  | none => Except.error errPublishFnNotImpl

/-- Virtual dispatch of publish(const Image&, const PublisherT&): the
override when present, else the base default, which falls back to the
deprecated PublishFn entry point through bindInternalPublisher. -/
def publishWithPublisherT {M : Type} (p : SimplePublisherPlugin M)
    (message : Image) (publisher : PublisherT M) : PubResult M :=
  match p.encodePublisherT with
  | some f => f message publisher
  | none => publishWithPublishFn p message (bindInternalPublisher publisher)

/-- Virtual dispatch of publish(Image::UniquePtr, const PublisherT&): the
override when present, else the base default, which throws. -/
def publishUniquePtrWithPublisherT {M : Type} (p : SimplePublisherPlugin M)
    (message : Image) (publisher : PublisherT M) : PubResult M :=
  match p.encodeUniquePtr with
  | some f => f message publisher
  | none => Except.error errUniquePtrNotImpl

/-- The private impl of SimplePublisherPlugin: present after a successful
advertise (simple_impl_), holding the publisher (pub_). -/
structure SimplePublisherPluginImpl (M : Type) where
  pub_ : Option (PublisherT M)
deriving DecidableEq, Repr

/-- SimplePublisherPlugin::publish(const Image&): logs an error and
becomes a no-op when the plugin has no impl or no publisher; otherwise
dispatches to the copy-based PublisherT entry point. -/
def SimplePublisherPlugin.publish {M : Type} (p : SimplePublisherPlugin M)
    (simple_impl : Option (SimplePublisherPluginImpl M)) (message : Image) :
    PubResult M :=
  match simple_impl with
  | none => Except.ok [PubEffect.logError errInvalidPub]
  | some impl =>
    match impl.pub_ with
    | none => Except.ok [PubEffect.logError errInvalidPub]
    | some pub => publishWithPublisherT p message pub

/-- SimplePublisherPlugin::publishUniquePtr: logs an error and becomes a
no-op when the plugin has no impl or no publisher; otherwise dispatches to
the owned PublisherT entry point. -/
def SimplePublisherPlugin.publishUniquePtr {M : Type}
    (p : SimplePublisherPlugin M)
    (simple_impl : Option (SimplePublisherPluginImpl M)) (message : Image) :
    PubResult M :=
  match simple_impl with
  | none => Except.ok [PubEffect.logError errInvalidPub]
  | some impl =>
    match impl.pub_ with
    | none => Except.ok [PubEffect.logError errInvalidPub]
    | some pub => publishUniquePtrWithPublisherT p message pub

/-- SimplePublisherPlugin::getTopicToAdvertise default: base topic slash
transport name. -/
def getTopicToAdvertise (base_topic transport_name : String) : String :=
  base_topic ++ "/" ++ transport_name

/-- SimplePublisherPlugin::advertiseImpl: creates the impl and its
publisher on the advertised topic. -/
def advertiseImpl {M : Type} (base_topic transport_name : String) :
    SimplePublisherPluginImpl M :=
  { pub_ := some { topic := getTopicToAdvertise base_topic transport_name } }

/-- A raw-transport-like concrete plugin that implements only the
deprecated copy-based PublishFn entry point: it hands the image itself to
the publish function. -/
def rawEncodeFn : Image → (Image → List (PubEffect Image)) → PubResult Image :=
  fun message publish_fn => Except.ok (publish_fn message)

/-- A concrete plugin overriding only the deprecated copy-based entry
point, leaving every other virtual at its base default. -/
def defaultOnlyPlugin : SimplePublisherPlugin Image :=
  { encodePublishFn := some rawEncodeFn
    encodePublisherT := none
    encodeUniquePtr := none
    supportsUniquePtrOverride := none }

/-- The impl of defaultOnlyPlugin after advertising camera/image over the
raw transport. -/
def advertisedImpl : SimplePublisherPluginImpl Image :=
  advertiseImpl "camera/image" "raw"

/-- A plugin impl on which advertise has not (successfully) created the
publisher. -/
def unadvertisedImpl : SimplePublisherPluginImpl Image := { pub_ := none }

/-- A concrete image message. -/
def img0 : Image := { stamp := 0 }

/-- The topic advertisedImpl publishes on. -/
def rawTopic : String := getTopicToAdvertise "camera/image" "raw"

/-- C7: on an advertised plugin that leaves supportsUniquePtrPub at its
default false and does not override the owned entry point, calling
publishUniquePtr throws the not-implemented std::logic_error to the
caller and never returns successfully (so the message is not silently
dropped); the abstract base default behaves the same. -/
theorem publishUniquePtr_default_raises {M : Type}
    (p : SimplePublisherPlugin M) (impl : SimplePublisherPluginImpl M)
    (pub : PublisherT M) (message : Image)
    (hflag : p.supportsUniquePtrOverride = none)
    (hover : p.encodeUniquePtr = none)
    (hadv : impl.pub_ = some pub) :
    supportsUniquePtrPub p = false ∧
    SimplePublisherPlugin.publishUniquePtr p (some impl) message =
      Except.error errUniquePtrNotImpl ∧
    publishUniquePtrBaseDefault M = Except.error errBaseUniquePtrNotImpl ∧
    (∀ effects, SimplePublisherPlugin.publishUniquePtr p (some impl) message ≠
      Except.ok effects) := by
  have h2 : SimplePublisherPlugin.publishUniquePtr p (some impl) message =
      Except.error errUniquePtrNotImpl := by
    simp [SimplePublisherPlugin.publishUniquePtr, hadv,
      publishUniquePtrWithPublisherT, hover]
  refine ⟨by simp [supportsUniquePtrPub, hflag], h2, rfl, fun effects hok => ?_⟩
  rw [h2] at hok
  exact Except.noConfusion hok

/-- Witness for C7: the concrete default-only plugin, advertised, throws on
the owned publish form. -/
theorem publishUniquePtr_default_raises_witness :
    supportsUniquePtrPub defaultOnlyPlugin = false ∧
    SimplePublisherPlugin.publishUniquePtr defaultOnlyPlugin
      (some advertisedImpl) img0 = Except.error errUniquePtrNotImpl :=
  ⟨(publishUniquePtr_default_raises defaultOnlyPlugin advertisedImpl
      { topic := rawTopic } img0 rfl rfl rfl).1,
   (publishUniquePtr_default_raises defaultOnlyPlugin advertisedImpl
      { topic := rawTopic } img0 rfl rfl rfl).2.1⟩

/-- C8 counterexample: on the advertised default-only plugin the owned
entry point does not fall back to the copy-based path: the copy publish
delivers the wire message, while publishUniquePtr throws the
not-implemented error, so the two calls disagree. -/
theorem simple_owned_fallback_counterexample :
    SimplePublisherPlugin.publishUniquePtr defaultOnlyPlugin
      (some advertisedImpl) img0 = Except.error errUniquePtrNotImpl ∧
    SimplePublisherPlugin.publish defaultOnlyPlugin
      (some advertisedImpl) img0 = Except.ok [PubEffect.wire rawTopic img0] ∧
    SimplePublisherPlugin.publishUniquePtr defaultOnlyPlugin
      (some advertisedImpl) img0 ≠
      SimplePublisherPlugin.publish defaultOnlyPlugin
        (some advertisedImpl) img0 := by
  refine ⟨rfl, rfl, fun h => ?_⟩
  have h2 : (Except.error errUniquePtrNotImpl : PubResult Image) =
      Except.ok [PubEffect.wire rawTopic img0] := h
  exact Except.noConfusion h2

/-- C8 amended: in SimplePublisherPlugin it is the copy-based PublisherT
entry point that, when not overridden, falls back to the deprecated
copy-based PublishFn entry point by constructing a transient function
wrapper (bindInternalPublisher) around the concrete publisher object, so a
copy publish through the base class is delivered via that path; the owned
(UniquePtr) entry point, when not overridden, instead throws the
not-implemented std::logic_error. -/
theorem simple_copy_fallback_amended {M : Type} (p : SimplePublisherPlugin M)
    (f : Image → (M → List (PubEffect M)) → PubResult M) (message : Image)
    (impl : SimplePublisherPluginImpl M) (pub : PublisherT M)
    (hT : p.encodePublisherT = none)
    (hf : p.encodePublishFn = some f)
    (hU : p.encodeUniquePtr = none)
    (hadv : impl.pub_ = some pub) :
    SimplePublisherPlugin.publish p (some impl) message =
      f message (bindInternalPublisher pub) ∧
    publishWithPublisherT p message pub =
      publishWithPublishFn p message (bindInternalPublisher pub) ∧
    SimplePublisherPlugin.publishUniquePtr p (some impl) message =
      Except.error errUniquePtrNotImpl := by
  refine ⟨?_, ?_, ?_⟩
  · simp [SimplePublisherPlugin.publish, hadv, publishWithPublisherT, hT,
      publishWithPublishFn, hf]
  · simp [publishWithPublisherT, hT]
  · simp [SimplePublisherPlugin.publishUniquePtr, hadv,
      publishUniquePtrWithPublisherT, hU]

/-- Witness for C8: the concrete default-only plugin delivers a copy
publish through the PublishFn wrapper around its advertised publisher. -/
theorem simple_copy_fallback_amended_witness :
    SimplePublisherPlugin.publish defaultOnlyPlugin (some advertisedImpl) img0 =
      rawEncodeFn img0 (bindInternalPublisher { topic := rawTopic }) :=
  (simple_copy_fallback_amended defaultOnlyPlugin rawEncodeFn img0
    advertisedImpl { topic := rawTopic } rfl rfl rfl rfl).1

/-- C9: calling either publish form before a successful advertise (no impl,
or an impl without a publisher) logs the invalid-plugin error and is a
no-op: the result is a normal return whose only effect is the log — no
wire message and no exception. -/
theorem publish_before_advertise_noop {M : Type}
    (p : SimplePublisherPlugin M) (message : Image) :
    SimplePublisherPlugin.publish p none message =
      Except.ok [PubEffect.logError errInvalidPub] ∧
    SimplePublisherPlugin.publishUniquePtr p none message =
      Except.ok [PubEffect.logError errInvalidPub] ∧
    (∀ impl : SimplePublisherPluginImpl M, impl.pub_ = none →
      SimplePublisherPlugin.publish p (some impl) message =
        Except.ok [PubEffect.logError errInvalidPub] ∧
      SimplePublisherPlugin.publishUniquePtr p (some impl) message =
        Except.ok [PubEffect.logError errInvalidPub]) := by
  refine ⟨rfl, rfl, fun impl himpl => ⟨?_, ?_⟩⟩
  · simp [SimplePublisherPlugin.publish, himpl]
  · simp [SimplePublisherPlugin.publishUniquePtr, himpl]

/-- Witness for C9: the concrete unadvertised impl, both publish forms. -/
theorem publish_before_advertise_noop_witness :
    SimplePublisherPlugin.publish defaultOnlyPlugin
      (some unadvertisedImpl) img0 =
      Except.ok [PubEffect.logError errInvalidPub] ∧
    SimplePublisherPlugin.publishUniquePtr defaultOnlyPlugin
      (some unadvertisedImpl) img0 =
      Except.ok [PubEffect.logError errInvalidPub] :=
  (publish_before_advertise_noop defaultOnlyPlugin img0).2.2
    unadvertisedImpl rfl

end ImageTransport
